import Mathlib

/-!
Verification of the autogpt-discord plugin
(`src/auto_gpt_plugin_template/__init__.py`).

The file embeds, as Lean definitions, the data model and operations of the
repository: the `DiscordPlugin` adapter state set up by `__init__`, its
`on_response` relay hook (delivery attempts are made explicit as a list of
`(channel id, text)` send events), its `pre_command` rewrite rule, its
capability predicates, and the host-side dispatch discipline described by
the hook contract.  Theorems about these definitions follow the definitions.
-/

/-- A Discord channel object, as returned by `bot.get_channel`.  Only its
identity matters to this code; `channel.send(text)` is recorded as a
`(channel id, text)` event by the embedding of `on_response`. -/
structure Channel where
  id : Int
deriving DecidableEq

/-- The external chat-session handle (`commands.Bot`): for this code it is
a lookup from channel identifiers to channels (`get_channel`). -/
structure DiscordBot where
  channels : Int → Option Channel

/-- Embedding of `bot.get_channel(channel_id)`: the channel with that id,
or `None` when no such channel is visible to the session. -/
def DiscordBot.get_channel (b : DiscordBot) (channel_id : Int) : Option Channel :=
  b.channels channel_id

/-- The mutable fields of a `DiscordPlugin` instance.  `bot = none` models
`self._bot is None` (no `connect` has succeeded yet). -/
structure DiscordPlugin where
  name : String
  version : String
  description : String
  bot_token : String
  bot : Option DiscordBot
  command_prefix : String

/-- Embedding of `DiscordPlugin.__init__(bot_token)`: `super().__init__()`
first writes the template metadata, then the constructor overwrites
`_name`, `_version`, `_description` with the Discord-plugin values and sets
`_bot_token`, `_bot = None`, `_command_prefix = "!"`. -/
def DiscordPlugin.init (bot_token : String) : DiscordPlugin :=
  { name := "Auto-GPT Discord Plugin"
    version := "0.1.0"
    description := "This plugin enables Auto-GPT to communicate over Discord"
    bot_token := bot_token
    bot := none
    command_prefix := "!" }

/-- Embedding of `DiscordPlugin.connect`: installs a session handle into
the `bot` field.  The login/handshake belongs to the external SDK; the
handle it yields is the argument `b`. -/
def DiscordPlugin.connect (s : DiscordPlugin) (b : DiscordBot) : DiscordPlugin :=
  { s with bot := some b }

/-- Embedding of `DiscordPlugin.on_response(response, **kwargs)`.  The
result is the (unchanged) instance state, the returned string, and the list
of `channel.send` events performed: the body sends `response` to channel
`cid` exactly when `self._bot is not None`, `kwargs.get("channel_id")` is a
truthy integer `cid` (Python: present and nonzero), and
`self._bot.get_channel(cid)` is truthy (a channel, not `None`); in every
case it returns `response`. -/
def DiscordPlugin.on_response (s : DiscordPlugin) (response : String)
    (channel_id : Option Int) : DiscordPlugin × String × List (Int × String) :=
  let sends : List (Int × String) :=
    match s.bot with
    | none => []
    | some b =>
      match channel_id with
      | none => []
      | some cid =>
        if cid ≠ 0 then
          match b.get_channel cid with
          | some _ => [(cid, response)]
          | none => []
        else []
  (s, response, sends)

/-- Embedding of `DiscordPlugin.can_handle_pre_command`: `return True`. -/
def DiscordPlugin.can_handle_pre_command : Bool := true

/-- Embedding of `DiscordPlugin.pre_command(command_name, arguments)`:
`if command_name == "hello": return "say_hello", {}` else pass both
through unchanged.  The argument mapping is a list of key/value pairs
(`{}` is `[]`); values are any type `α`. -/
def DiscordPlugin.pre_command {α : Type} (command_name : String)
    (arguments : List (String × α)) : String × List (String × α) :=
  if command_name = "hello" then ("say_hello", [])
  else (command_name, arguments)

/-- Embedding of `DiscordPlugin.can_handle_chat_completion`: the override
takes no arguments beyond `self` and does `return False`. -/
def DiscordPlugin.can_handle_chat_completion : Bool := false

/-- Embedding of `DiscordPlugin.can_handle_on_response`: `return True`. -/
def DiscordPlugin.can_handle_on_response : Bool := true

/-- Embedding of `DiscordPlugin.handle_chat_completion(prompt, completions)`:
`return completions`. -/
def DiscordPlugin.handle_chat_completion (prompt : String)
    (completions : List String) : List String :=
  completions

/-- Embedding of `DiscordPlugin.on_instruction`: `return None`. -/
def DiscordPlugin.on_instruction (instruction : String) : Option String :=
  none

/-- Embedding of `DiscordPlugin.pre_instruction`: `return instruction, []`. -/
def DiscordPlugin.pre_instruction (instruction : String) :
    String × List String :=
  (instruction, [])

/-- Embedding of `DiscordPlugin.post_instruction`: `return None`. -/
def DiscordPlugin.post_instruction (instruction response : String) :
    Option String :=
  none

/-- Embedding of `DiscordPlugin.on_planning`: `return None`. -/
def DiscordPlugin.on_planning (prompt : String) : Option String :=
  none

/-- Embedding of `DiscordPlugin.pre_planning`: `return prompt, {}`. -/
def DiscordPlugin.pre_planning (prompt : String) :
    String × List (String × String) :=
  (prompt, [])

/-- The extension points of the hook contract `AutoGPTPluginTemplate`:
one per predicate/handler pair declared `@abc.abstractmethod` in the base
class. -/
inductive ExtensionPoint where
  | onResponse
  | postPrompt
  | onPlanning
  | postPlanning
  | preInstruction
  | onInstruction
  | postInstruction
  | preCommand
  | postCommand
  | chatCompletion
deriving DecidableEq, Fintype

/-- The capability predicate of `DiscordPlugin` resolved per extension
point: the override where the class defines one
(`can_handle_on_response` → True, `can_handle_pre_command` → True,
`can_handle_chat_completion` / `can_handle_on_planning` /
`can_handle_post_planning` / `can_handle_pre_instruction` /
`can_handle_on_instruction` / `can_handle_post_instruction` → False),
otherwise the inherited base-class body
(`can_handle_post_prompt`, `can_handle_post_command`: `return False`). -/
def DiscordPlugin.canHandle : ExtensionPoint → Bool
  | ExtensionPoint.onResponse => DiscordPlugin.can_handle_on_response
  | ExtensionPoint.postPrompt => false
  | ExtensionPoint.onPlanning => false
  | ExtensionPoint.postPlanning => false
  | ExtensionPoint.preInstruction => false
  | ExtensionPoint.onInstruction => false
  | ExtensionPoint.postInstruction => false
  | ExtensionPoint.preCommand => DiscordPlugin.can_handle_pre_command
  | ExtensionPoint.postCommand => false
  | ExtensionPoint.chatCompletion => DiscordPlugin.can_handle_chat_completion

/-- Whether the class body of `DiscordPlugin` overrides the capability
predicate of an extension point.  From the source: the class defines
`can_handle_on_response`, `can_handle_on_planning`,
`can_handle_post_planning`, `can_handle_pre_instruction`,
`can_handle_on_instruction`, `can_handle_post_instruction`,
`can_handle_pre_command` and `can_handle_chat_completion`, but neither
`can_handle_post_prompt` nor `can_handle_post_command`. -/
def DiscordPlugin.overridesPredicate : ExtensionPoint → Bool
  | ExtensionPoint.onResponse => true
  | ExtensionPoint.postPrompt => false
  | ExtensionPoint.onPlanning => true
  | ExtensionPoint.postPlanning => true
  | ExtensionPoint.preInstruction => true
  | ExtensionPoint.onInstruction => true
  | ExtensionPoint.postInstruction => true
  | ExtensionPoint.preCommand => true
  | ExtensionPoint.postCommand => false
  | ExtensionPoint.chatCompletion => true

/-- Whether the class body of `DiscordPlugin` overrides the handler of an
extension point.  From the source: the class defines `on_response`,
`on_planning`, `pre_instruction`, `on_instruction`, `post_instruction`,
`pre_command` and `handle_chat_completion`, but none of `post_prompt`,
`post_planning` (the file ends right after `can_handle_post_planning`) or
`post_command`. -/
def DiscordPlugin.overridesHandler : ExtensionPoint → Bool
  | ExtensionPoint.onResponse => true
  | ExtensionPoint.postPrompt => false
  | ExtensionPoint.onPlanning => true
  | ExtensionPoint.postPlanning => false
  | ExtensionPoint.preInstruction => true
  | ExtensionPoint.onInstruction => true
  | ExtensionPoint.postInstruction => true
  | ExtensionPoint.preCommand => true
  | ExtensionPoint.postCommand => false
  | ExtensionPoint.chatCompletion => true

/-- One invocation of a hook handler that the `DiscordPlugin` class
defines, with its arguments (argument-mapping values fixed to `Int` for
concreteness). -/
inductive HookCall where
  | onResponse (response : String) (channel_id : Option Int)
  | preCommand (command_name : String) (arguments : List (String × Int))
  | handleChatCompletion (prompt : String) (completions : List String)
  | onInstruction (instruction : String)
  | preInstruction (instruction : String)
  | postInstruction (instruction response : String)
  | onPlanning (prompt : String)
  | prePlanning (prompt : String)

/-- The instance state after one hook invocation.  `on_response` is the
only hook whose body reads `self`; no hook body assigns to any field of
`self`, so each case yields the state component of the hook's result. -/
def DiscordPlugin.applyHook (s : DiscordPlugin) : HookCall → DiscordPlugin
  | HookCall.onResponse response channel_id =>
      (DiscordPlugin.on_response s response channel_id).1
  | HookCall.preCommand _ _ => s
  | HookCall.handleChatCompletion _ _ => s
  | HookCall.onInstruction _ => s
  | HookCall.preInstruction _ => s
  | HookCall.postInstruction _ _ => s
  | HookCall.onPlanning _ => s
  | HookCall.prePlanning _ => s

/-- An observable event of the host-plugin interaction: the host queries a
capability predicate and records its result, or the host executes a
handler. -/
inductive HostEvent where
  | pred (p : ExtensionPoint) (result : Bool)
  | exec (p : ExtensionPoint)
deriving DecidableEq

/-- Modelled from the spec: the host-side dispatch discipline, which is
not code of this repository.  "Control flow is entirely host-driven: an
external orchestrator calls `can_handle_X()`; if true, it calls the paired
handler."  A valid trace (most recent event first) may always query a
predicate, whose recorded result is what `DiscordPlugin.canHandle`
returns, and may execute a handler only when the corresponding predicate
was previously queried and returned true. -/
inductive ValidTrace : List HostEvent → Prop where
  | nil : ValidTrace []
  | pred (p : ExtensionPoint) (t : List HostEvent) :
      ValidTrace t →
      ValidTrace (HostEvent.pred p (DiscordPlugin.canHandle p) :: t)
  | exec (p : ExtensionPoint) (t : List HostEvent) :
      ValidTrace t → HostEvent.pred p true ∈ t →
      ValidTrace (HostEvent.exec p :: t)

lemma validTrace_pred_result {t : List HostEvent} (h : ValidTrace t) :
    ∀ p b, HostEvent.pred p b ∈ t → b = DiscordPlugin.canHandle p := by
  induction h with
  | nil => intro p b hb; cases hb
  | pred q u _hu ih =>
      intro p b hb
      rcases List.mem_cons.mp hb with heq | hmem
      · cases heq; rfl
      · exact ih p b hmem
  | exec q u _hu _hq ih =>
      intro p b hb
      rcases List.mem_cons.mp hb with heq | hmem
      · cases heq
      · exact ih p b hmem

lemma applyHook_eq_self (s : DiscordPlugin) (c : HookCall) :
    DiscordPlugin.applyHook s c = s := by
  cases c <;> rfl

lemma foldl_applyHook_eq_self (calls : List HookCall) :
    ∀ s : DiscordPlugin, List.foldl DiscordPlugin.applyHook s calls = s := by
  induction calls with
  | nil => intro s; rfl
  | cons c cs ih =>
      intro s
      rw [List.foldl_cons, applyHook_eq_self]
      exact ih s

/-- C1: `pre_command` maps the name "hello" (with any argument mapping) to
`("say_hello", {})`, and passes every other name through with its argument
mapping unchanged. -/
theorem pre_command_rewrite_spec {α : Type} (command_name : String)
    (arguments other_arguments : List (String × α))
    (h : command_name ≠ "hello") :
    DiscordPlugin.pre_command "hello" other_arguments = ("say_hello", []) ∧
    DiscordPlugin.pre_command command_name arguments =
      (command_name, arguments) := by
  constructor
  · simp [DiscordPlugin.pre_command]
  · simp [DiscordPlugin.pre_command, h]

/-- Witness for C1 at the spec's concrete inputs: on "hello" with the
empty mapping the result is "say_hello" with the empty mapping, and on
"anything_else" with the mapping of "x" to 1 both components are
unchanged. -/
theorem pre_command_rewrite_spec_witness :
    DiscordPlugin.pre_command "hello" ([] : List (String × Int)) =
      ("say_hello", []) ∧
    DiscordPlugin.pre_command "anything_else" [("x", (1 : Int))] =
      ("anything_else", [("x", 1)]) :=
  ⟨(pre_command_rewrite_spec "anything_else" [("x", 1)] [] (by decide)).1,
   (pre_command_rewrite_spec "anything_else" [("x", 1)] [] (by decide)).2⟩

/-- C2: `on_response` returns exactly its response argument, for every
instance state and every `channel_id` keyword, whatever delivery events
occur. -/
theorem on_response_returns_response (s : DiscordPlugin) (response : String)
    (channel_id : Option Int) :
    (DiscordPlugin.on_response s response channel_id).2.1 = response :=
  rfl

/-- C3: when the session handle is absent (`bot = none`) or the context
carries no channel identifier (`channel_id = none`), `on_response` performs
no delivery (empty send list), changes nothing, and returns the
response. -/
theorem on_response_skips_delivery (s : DiscordPlugin) (response : String)
    (channel_id : Option Int) (h : s.bot = none ∨ channel_id = none) :
    DiscordPlugin.on_response s response channel_id = (s, response, []) := by
  rcases h with h | h
  · simp [DiscordPlugin.on_response, h]
  · subst h
    cases hb : s.bot <;> simp [DiscordPlugin.on_response, hb]

/-- Witness for C3: `on_response("hi", channel_id=None)` and
`on_response("hi", channel_id=42)` on a freshly constructed (unconnected)
plugin both return "hi" with no delivery attempt. -/
theorem on_response_skips_delivery_witness :
    DiscordPlugin.on_response (DiscordPlugin.init "token") "hi" (some 42) =
      (DiscordPlugin.init "token", "hi", []) ∧
    DiscordPlugin.on_response (DiscordPlugin.init "token") "hi" none =
      (DiscordPlugin.init "token", "hi", []) :=
  ⟨on_response_skips_delivery _ _ _ (Or.inl rfl),
   on_response_skips_delivery _ _ _ (Or.inr rfl)⟩

/-- C4: `pre_command` is idempotent on every input: applying it to its own
result yields that same result. -/
theorem pre_command_idempotent {α : Type} (command_name : String)
    (arguments : List (String × α)) :
    DiscordPlugin.pre_command
        (DiscordPlugin.pre_command command_name arguments).1
        (DiscordPlugin.pre_command command_name arguments).2 =
      DiscordPlugin.pre_command command_name arguments := by
  by_cases h : command_name = "hello" <;>
    simp [DiscordPlugin.pre_command, h]

/-- C5: the adapter's `can_handle_on_response` returns true on every call
and its `can_handle_chat_completion` returns false on every call (the
override is a constant: it takes no arguments beyond `self`). -/
theorem capability_on_response_and_chat_completion :
    DiscordPlugin.can_handle_on_response = true ∧
    DiscordPlugin.can_handle_chat_completion = false :=
  ⟨rfl, rfl⟩

/-- C6: every capability predicate of the adapter other than
`can_handle_on_response` and `can_handle_pre_command` — whether an explicit
override or the inherited base-class body — returns false. -/
theorem other_capabilities_false (p : ExtensionPoint)
    (h1 : p ≠ ExtensionPoint.onResponse)
    (h2 : p ≠ ExtensionPoint.preCommand) :
    DiscordPlugin.canHandle p = false := by
  cases p <;> first
    | rfl
    | exact absurd rfl h1
    | exact absurd rfl h2

/-- Witness for C6 at the chat-completion point. -/
theorem other_capabilities_false_witness :
    DiscordPlugin.canHandle ExtensionPoint.chatCompletion = false :=
  other_capabilities_false ExtensionPoint.chatCompletion
    (by decide) (by decide)

/-- C7: the identity metadata written by `__init__` (name, version,
description) is unchanged by every sequence of hook invocations. -/
theorem metadata_fixed_after_hooks (bot_token : String)
    (calls : List HookCall) :
    (List.foldl DiscordPlugin.applyHook (DiscordPlugin.init bot_token)
        calls).name = "Auto-GPT Discord Plugin" ∧
    (List.foldl DiscordPlugin.applyHook (DiscordPlugin.init bot_token)
        calls).version = "0.1.0" ∧
    (List.foldl DiscordPlugin.applyHook (DiscordPlugin.init bot_token)
        calls).description =
      "This plugin enables Auto-GPT to communicate over Discord" := by
  rw [foldl_applyHook_eq_self]
  exact ⟨rfl, rfl, rfl⟩

/-- C8: the `DiscordPlugin` class does NOT supply an implementation for
every predicate/handler pair declared abstract in the base contract: the
`post_prompt` and `post_command` pairs and the `post_planning` handler are
left abstract, so the class violates the base contract's requirement. -/
theorem discordPlugin_missing_required_overrides :
    DiscordPlugin.overridesPredicate ExtensionPoint.postPrompt = false ∧
    DiscordPlugin.overridesHandler ExtensionPoint.postPrompt = false ∧
    DiscordPlugin.overridesPredicate ExtensionPoint.postCommand = false ∧
    DiscordPlugin.overridesHandler ExtensionPoint.postCommand = false ∧
    DiscordPlugin.overridesHandler ExtensionPoint.postPlanning = false ∧
    ¬ ∀ p : ExtensionPoint, DiscordPlugin.overridesPredicate p = true ∧
        DiscordPlugin.overridesHandler p = true := by
  refine ⟨rfl, rfl, rfl, rfl, rfl, ?_⟩
  intro h
  exact absurd (h ExtensionPoint.postPrompt).1 (by decide)

/-- C9: in every valid host trace (the host queries a predicate, and
executes a handler only after that point's predicate returned true), a
handler execution never occurs for a point whose capability predicate is
false: every executed point satisfies `DiscordPlugin.canHandle`. -/
theorem handler_never_after_false_predicate (t : List HostEvent)
    (p : ExtensionPoint) (h : ValidTrace t)
    (hm : HostEvent.exec p ∈ t) :
    DiscordPlugin.canHandle p = true := by
  induction h with
  | nil => cases hm
  | pred q u hu ih =>
      rcases List.mem_cons.mp hm with heq | hmem
      · cases heq
      · exact ih hmem
  | exec q u hu hq ih =>
      rcases List.mem_cons.mp hm with heq | hmem
      · cases heq
        exact (validTrace_pred_result hu p true hq).symm
      · exact ih hmem

/-- Witness for C9: the concrete trace in which the host queries the
pre-command predicate (true) and then executes the pre-command handler is
valid, and the theorem yields that the executed point's predicate is
true. -/
theorem handler_never_after_false_predicate_witness :
    DiscordPlugin.canHandle ExtensionPoint.preCommand = true :=
  handler_never_after_false_predicate
    [HostEvent.exec ExtensionPoint.preCommand,
     HostEvent.pred ExtensionPoint.preCommand true]
    ExtensionPoint.preCommand
    (ValidTrace.exec ExtensionPoint.preCommand
      [HostEvent.pred ExtensionPoint.preCommand true]
      (ValidTrace.pred ExtensionPoint.preCommand [] ValidTrace.nil)
      (List.Mem.head _))
    (List.Mem.head _)

/-- C10: `handle_chat_completion` returns exactly its completions argument
and ignores the prompt entirely. -/
theorem handle_chat_completion_identity (prompt prompt2 : String)
    (completions : List String) :
    DiscordPlugin.handle_chat_completion prompt completions = completions ∧
    DiscordPlugin.handle_chat_completion prompt completions =
      DiscordPlugin.handle_chat_completion prompt2 completions :=
  ⟨rfl, rfl⟩
